import Mathlib

/-!
Shallow embedding of the backend-process supervisor in
`src/packages/gui-tauri/src-tauri/src/main.rs` (wqbot desktop shell).

The Rust code spawns, probes and stops a single backend child process.
Platform effects (filesystem existence checks, process spawning, signal
delivery, TCP connects) are modelled as oracle functions collected in an
`Env` record; every supervisor function is translated into a pure Lean
function of the environment that returns its result together with the
list of externally visible events it performs, in program order.  The
shared `BackendProcess(Mutex<Option<Child>>)` slot is the `slot` field of
`SupervisorState`; `lockOk` models whether `Mutex::lock` returns `Ok`
(it is `Err` only for a poisoned mutex, which this program never
produces, but the source still branches on it with `if let Ok`).
-/

namespace WQBot

/-- Host platform, for the `cfg!(target_os = ...)` branches. -/
inductive Platform where
  | windows
  | macos
  | linux
deriving DecidableEq

/-- A filesystem path, as its list of components (`PathBuf`). -/
abbrev Path := List String

/-- Render a path as a string, components joined by a separator
(`PathBuf` display; used where the Rust code passes a path as an
argument to a spawned command). -/
def pathStr (p : Path) : String :=
  String.intercalate "/" p

/-- Rust `{:?}` debug formatting of a `PathBuf`: the rendered path
wrapped in double quotes. -/
def debugPath (p : Path) : String :=
  "\"" ++ pathStr p ++ "\""

/-- Model of `PathBuf::parent`: drops the last component; `none` for the
empty path (mirrors `parent()` returning `None` at the root). -/
def parentPath : Path → Option Path
  | [] => none
  | xs => some xs.dropLast

/-- Model of `PathBuf::join` with a single extra component. -/
def joinPath (p : Path) (c : String) : Path := p ++ [c]

/-- A command to spawn: program name, argument list and optional working
directory (`Command::new`, `.args`, `.current_dir`). -/
structure SpawnCmd where
  program : String
  args : List String
  cwd : Option Path := none
deriving DecidableEq

/-- A running child process (`std::process::Child`); only its process
identifier matters to the supervisor. -/
structure Child where
  pid : Nat
deriving DecidableEq

/-- Externally visible events a supervisor operation performs, in
program order. -/
inductive Event where
  | lockAcquire
  | lockRelease
  | takeHandle (pid : Nat)
  | storeHandle (pid : Nat)
  | signalSend (cmd : SpawnCmd) (ok : Bool)
  | waitExit (pid : Nat)
  | sleepMs (ms : Nat)
  | spawnAttempt (cmd : SpawnCmd) (ok : Bool)
  | connectAttempt (addr : String) (ok : Bool)
  | sendData (addr : String)
  | recvData (addr : String)
deriving DecidableEq

/-- Oracle for everything the process asks of the operating system. -/
structure Env where
  platform : Platform
  arch : String
  currentExe : Option Path
  dirExists : Path → Bool
  fileExists : Path → Bool
  resolveOnPath : String → Bool
  pathExistsStr : String → Bool
  spawn : SpawnCmd → Option Child
  signalOk : SpawnCmd → Bool
  connect : String → Except String Unit

/-- The shared state: the `BackendProcess(Mutex<Option<Child>>)` slot.
`lockOk` records whether `Mutex::lock` succeeds (always, absent
poisoning). -/
structure SupervisorState where
  slot : Option Child
  lockOk : Bool
deriving DecidableEq

/-- Linux system-wide fallback resource path
`/usr/share/wqbot/resources`. -/
def system_resource : Path := ["", "usr", "share", "wqbot", "resources"]

/-- Embedding of `get_resource_dir` (`main.rs` lines 16-54): from the
current executable's directory, the adjacent `resources` folder on
Windows and Linux, the sibling `Resources` folder on macOS, with the
system-wide fallback on Linux; each candidate must exist, otherwise
`None`. -/
def get_resource_dir (env : Env) : Option Path :=
  match env.currentExe with
  | some exePath =>
    match parentPath exePath with
    | some exeDir =>
      match env.platform with
      | .windows =>
        let resourceDir := joinPath exeDir "resources"
        if env.dirExists resourceDir then some resourceDir else none
      | .macos =>
        match parentPath exeDir with
        | some contents =>
          let resourceDir := joinPath contents "Resources"
          if env.dirExists resourceDir then some resourceDir else none
        | none => none
      | .linux =>
        let resourceDir := joinPath exeDir "resources"
        if env.dirExists resourceDir then some resourceDir
        else if env.dirExists system_resource then some system_resource
        else none
    | none => none
  | none => none

/-- The candidate Node.js locations tried by `find_node`
(`main.rs` lines 59-72). -/
def node_paths (p : Platform) : List String :=
  if p = .windows then
    ["node.exe",
     "C:\\Program Files\\nodejs\\node.exe",
     "C:\\Program Files (x86)\\nodejs\\node.exe"]
  else
    ["node", "/usr/local/bin/node", "/usr/bin/node", "/opt/homebrew/bin/node"]

/-- Loop body of `find_node`: for each candidate, first a `where`/`which`
lookup (success of the lookup command), then a direct
`Path::new(p).exists()` check; the first hit wins. -/
def find_node_go (env : Env) : List String → Option String
  | [] => none
  | np :: rest =>
    if env.resolveOnPath np then some np
    else if env.pathExistsStr np then some np
    else find_node_go env rest

/-- Embedding of `find_node` (`main.rs` lines 57-94). -/
def find_node (env : Env) : Option String :=
  find_node_go env (node_paths env.platform)

/-- The global-CLI spawn candidates tried first by `start_backend`
(`main.rs` lines 101-111): `wqbot serve`, then `npx wqbot serve`,
wrapped in `cmd /C` on Windows. -/
def global_commands (p : Platform) : List SpawnCmd :=
  if p = .windows then
    [{ program := "cmd", args := ["/C", "wqbot", "serve"] },
     { program := "cmd", args := ["/C", "npx", "wqbot", "serve"] }]
  else
    [{ program := "wqbot", args := ["serve"] },
     { program := "npx", args := ["wqbot", "serve"] }]

/-- The fixed relative location of the bundled backend entry point under
the resolved resource root:
`packages/backend/dist/index.js` (`main.rs` lines 136-140). -/
def backend_entry (resourceDir : Path) : Path :=
  resourceDir ++ ["packages", "backend", "dist", "index.js"]

/-- The `for (cmd, args) in global_commands` loop of `start_backend`:
attempt each spawn in order, return on the first success, log and fall
through on failure. -/
def try_spawn_list (env : Env) : List SpawnCmd → Option Child × List Event
  | [] => (none, [])
  | c :: rest =>
    match env.spawn c with
    | some child => (some child, [.spawnAttempt c true])
    | none =>
      let r := try_spawn_list env rest
      (r.1, .spawnAttempt c false :: r.2)

/-- Embedding of `start_backend` (`main.rs` lines 97-169): global CLI
candidates first; if all fail, the embedded-resource route (resource
directory, Node.js binary, bundled entry script) is tried; every failure
falls through and the function finally returns `none` without raising. -/
def start_backend (env : Env) : Option Child × List Event :=
  match try_spawn_list env (global_commands env.platform) with
  | (some child, t) => (some child, t)
  | (none, t) =>
    match get_resource_dir env with
    | some resourceDir =>
      match find_node env with
      | some node =>
        let entry := backend_entry resourceDir
        if env.fileExists entry then
          let cmd : SpawnCmd :=
            { program := node, args := [pathStr entry], cwd := some resourceDir }
          match env.spawn cmd with
          | some child => (some child, t ++ [.spawnAttempt cmd true])
          | none => (none, t ++ [.spawnAttempt cmd false])
        else (none, t)
      | none => (none, t)
    | none => (none, t)

/-- The termination command `stop_backend` issues (`main.rs` lines
178-190): `taskkill /PID <pid> /T` on Windows, `kill -TERM <pid>`
elsewhere. -/
def kill_cmd (p : Platform) (pid : Nat) : SpawnCmd :=
  if p = .windows then
    { program := "taskkill", args := ["/PID", toString pid, "/T"] }
  else
    { program := "kill", args := ["-TERM", toString pid] }

/-- Embedding of `stop_backend` (`main.rs` lines 172-197): under the
lock, take the handle out of the slot if present, issue the termination
command (its result ignored), then `child.wait()`; the mutex guard is
dropped only at the end of the `if let Ok` block, after the wait. -/
def stop_backend (env : Env) (s : SupervisorState) : SupervisorState × List Event :=
  if s.lockOk then
    match s.slot with
    | some child =>
      let cmd := kill_cmd env.platform child.pid
      ({ s with slot := none },
       [.lockAcquire, .takeHandle child.pid,
        .signalSend cmd (env.signalOk cmd),
        .waitExit child.pid, .lockRelease])
    | none => (s, [.lockAcquire, .lockRelease])
  else (s, [])

/-- The fixed probe address `127.0.0.1:3721` (`main.rs` line 202). -/
def backend_addr : String := "127.0.0.1:3721"

/-- Embedding of `check_backend_status` (`main.rs` lines 200-206): a
bare `TcpStream::connect` to the fixed address, `Ok(_) => true`,
`Err(_) => false`; the stream is dropped immediately, no data moves and
the state lock is never touched. -/
def check_backend_status (env : Env) : Bool × List Event :=
  match env.connect backend_addr with
  | .ok _ => (true, [.connectAttempt backend_addr true])
  | .error _ => (false, [.connectAttempt backend_addr false])

/-- Embedding of `restart_backend` (`main.rs` lines 209-223):
`stop_backend`, a fixed 500 ms sleep, then `start_backend`; the new
child is stored (and `true` returned) only when the spawn succeeded and
the lock is re-acquired, otherwise `false`. -/
def restart_backend (env : Env) (s : SupervisorState) :
    Bool × SupervisorState × List Event :=
  let stopped := stop_backend env s
  let t := stopped.2 ++ [.sleepMs 500]
  match start_backend env with
  | (some child, ts) =>
    if stopped.1.lockOk then
      (true, { stopped.1 with slot := some child },
       t ++ ts ++ [.storeHandle child.pid])
    else (false, stopped.1, t ++ ts)
  | (none, ts) => (false, stopped.1, t ++ ts)

/-- `std::env::consts::OS` for the modelled platforms. -/
def os_name (p : Platform) : String :=
  match p with
  | .windows => "windows"
  | .macos => "macos"
  | .linux => "linux"

/-- Embedding of `get_backend_info` (`main.rs` lines 227-249): a string
built by successive `push_str` of one `key: value\n` chunk per item, in
source order. -/
def get_backend_info (env : Env) : String :=
  let info := ""
  let info := info ++ ("平台: " ++ os_name env.platform ++ "\n")
  let info := info ++ ("架构: " ++ env.arch ++ "\n")
  let info :=
    match get_resource_dir env with
    | some resourceDir => info ++ ("资源目录: " ++ debugPath resourceDir ++ "\n")
    | none => info ++ "资源目录: 未找到\n"
  let info :=
    match find_node env with
    | some node => info ++ ("Node.js: " ++ node ++ "\n")
    | none => info ++ "Node.js: 未找到\n"
  let status := if (check_backend_status env).1 then "运行中" else "未运行"
  info ++ ("后端状态: " ++ status ++ "\n")

/-- The operations the UI layer can invoke on the shared state after
startup (`invoke_handler` and the window-destroy hook in `main`). -/
inductive Op where
  | opStatus
  | opStop
  | opRestart
deriving DecidableEq

/-- One UI-level operation as a transition on the shared state, with its
event trace. -/
def runOp (env : Env) (s : SupervisorState) : Op → SupervisorState × List Event
  | .opStatus => (s, (check_backend_status env).2)
  | .opStop => stop_backend env s
  | .opRestart =>
    let r := restart_backend env s
    (r.2.1, r.2.2)

/-! Concrete environments and states, used to instantiate the theorems
below on closed inputs. -/

/-- A Linux host where nothing resolves: no executable path, empty
filesystem, every spawn and the TCP connect fail, and sending the
termination signal fails too. -/
def envLinux : Env where
  platform := .linux
  arch := "x86_64"
  currentExe := none
  dirExists := fun _ => false
  fileExists := fun _ => false
  resolveOnPath := fun _ => false
  pathExistsStr := fun _ => false
  spawn := fun _ => none
  signalOk := fun _ => false
  connect := fun _ => .error "connection refused"

/-- Executable path used by the Windows test environment. -/
def exeW : Path := ["C:", "app", "wqbot.exe"]

/-- A Windows host whose only existing directory is the `resources`
folder adjacent to the executable. -/
def envWin : Env where
  platform := .windows
  arch := "x86_64"
  currentExe := some exeW
  dirExists := fun p => decide (p = ["C:", "app", "resources"])
  fileExists := fun _ => false
  resolveOnPath := fun _ => false
  pathExistsStr := fun _ => false
  spawn := fun _ => none
  signalOk := fun _ => true
  connect := fun _ => .error "connection refused"

/-- A state holding one backend handle, lock healthy. -/
def sOne : SupervisorState := { slot := some { pid := 7 }, lockOk := true }

/-- The empty state, lock healthy. -/
def sEmpty : SupervisorState := { slot := none, lockOk := true }

/-! Auxiliary definitions used to state the claims. -/

/-- Scan of an event trace tracking whether the state lock is currently
held; returns `true` when some wait-for-exit event occurs while the lock
is held. -/
def wait_while_locked : List Event → Bool → Bool
  | [], _ => false
  | Event.lockAcquire :: rest, _ => wait_while_locked rest true
  | Event.lockRelease :: rest, _ => wait_while_locked rest false
  | Event.waitExit _ :: rest, inside => inside || wait_while_locked rest inside
  | _ :: rest, inside => wait_while_locked rest inside

/-- The launch-candidate list in the order the spec enumerates it:
first the globally installed CLI, then the CLI via the package runner,
then — when the resource directory, a Node.js binary and the bundled
entry script all resolve — the local runtime on the embedded entry
script.  Written from the spec's candidate enumeration, to be compared
with `start_backend` as translated from the source. -/
def spec_candidates (env : Env) : List SpawnCmd :=
  global_commands env.platform ++
    (match get_resource_dir env with
     | some resourceDir =>
       match find_node env with
       | some node =>
         if env.fileExists (backend_entry resourceDir) then
           [{ program := node, args := [pathStr (backend_entry resourceDir)],
              cwd := some resourceDir }]
         else []
       | none => []
     | none => [])

/-- First successful spawn among a candidate list (the spec's
"first successfully spawned candidate wins"). -/
def first_spawn (env : Env) : List SpawnCmd → Option Child
  | [] => none
  | c :: rest =>
    match env.spawn c with
    | some child => some child
    | none => first_spawn env rest

/-- The spawn attempts made while scanning a candidate list: one failed
attempt per candidate until the first success, which is attempted and
stops the scan. -/
def attempts_of (env : Env) : List SpawnCmd → List Event
  | [] => []
  | c :: rest =>
    match env.spawn c with
    | some _ => [.spawnAttempt c true]
    | none => .spawnAttempt c false :: attempts_of env rest

/-- Scan of an event trace: `true` unless some handle is stored before
the handle with the given process identifier has been taken out of the
slot. -/
def taken_before_store (old : Nat) : List Event → Bool
  | [] => true
  | Event.takeHandle p :: rest =>
    if p = old then true else taken_before_store old rest
  | Event.storeHandle _ :: _ => false
  | _ :: rest => taken_before_store old rest

/-- A whole sequence of UI operations is safe when, at every step that
starts with a stored handle, no new handle is stored into the slot
before that handle has been taken out. -/
def steps_safe (env : Env) (s : SupervisorState) : List Op → Bool
  | [] => true
  | op :: rest =>
    (match s.slot with
     | some c => taken_before_store c.pid (runOp env s op).2
     | none => true)
    && steps_safe env (runOp env s op).1 rest

/-! Theorems for the individual claims. -/

/-- Claim C3: `check_backend_status` returns `true` exactly when the TCP
connect to the fixed address `127.0.0.1:3721` succeeds; every connection
error yields `false` (never an error result), and the only event
performed is the single connect attempt — no data is sent or received. -/
theorem status_iff_connect (env : Env) :
    ((check_backend_status env).1 = true ↔ env.connect backend_addr = .ok ())
    ∧ (∀ e, env.connect backend_addr = .error e →
        (check_backend_status env).1 = false)
    ∧ backend_addr = "127.0.0.1:3721"
    ∧ (check_backend_status env).2 =
        [Event.connectAttempt backend_addr ((check_backend_status env).1)] := by
  unfold check_backend_status
  cases h : env.connect backend_addr with
  | ok u =>
    cases u
    exact ⟨by simp, by simp, rfl, by simp⟩
  | error e =>
    exact ⟨by simp, by simp, rfl, by simp⟩

/-- Witness for C3 on a closed input: in `envLinux` the connect fails, and
the probe reports `false`. -/
theorem status_iff_connect_witness :
    envLinux.connect backend_addr = .error "connection refused"
    ∧ (check_backend_status envLinux).1 = false :=
  ⟨rfl, (status_iff_connect envLinux).2.1 "connection refused" rfl⟩

/-- Claim C4: with a handle present, `stop_backend` takes it out of the
slot, issues the platform termination command (`taskkill /PID <pid> /T`
on Windows, `kill -TERM <pid>` elsewhere) whose outcome is ignored, and
then waits for the process to exit; the wait is performed even when the
signal send fails. -/
theorem stop_signals_then_waits (env : Env) (s : SupervisorState) (c : Child)
    (hl : s.lockOk = true) (hs : s.slot = some c) :
    (stop_backend env s).1 = { s with slot := none }
    ∧ (stop_backend env s).2 =
        [Event.lockAcquire, Event.takeHandle c.pid,
         Event.signalSend (kill_cmd env.platform c.pid)
           (env.signalOk (kill_cmd env.platform c.pid)),
         Event.waitExit c.pid, Event.lockRelease]
    ∧ (env.platform = .windows →
        kill_cmd env.platform c.pid =
          { program := "taskkill", args := ["/PID", toString c.pid, "/T"] })
    ∧ (env.platform ≠ .windows →
        kill_cmd env.platform c.pid =
          { program := "kill", args := ["-TERM", toString c.pid] })
    ∧ (env.signalOk (kill_cmd env.platform c.pid) = false →
        Event.waitExit c.pid ∈ (stop_backend env s).2) := by
  unfold stop_backend
  refine ⟨by simp [hl, hs], by simp [hl, hs], ?_, ?_, by simp [hl, hs]⟩
  · intro hp; simp [kill_cmd, hp]
  · intro hp; simp [kill_cmd, hp]

/-- Witness for C4 on a closed input: in `envLinux` the signal send
fails, yet the handle is cleared and the wait is still performed. -/
theorem stop_signals_then_waits_witness :
    sOne.lockOk = true ∧ sOne.slot = some { pid := 7 }
    ∧ (stop_backend envLinux sOne).1 = { sOne with slot := none }
    ∧ envLinux.signalOk (kill_cmd envLinux.platform 7) = false
    ∧ Event.waitExit 7 ∈ (stop_backend envLinux sOne).2 :=
  ⟨rfl, rfl,
   (stop_signals_then_waits envLinux sOne { pid := 7 } rfl rfl).1, rfl,
   (stop_signals_then_waits envLinux sOne { pid := 7 } rfl rfl).2.2.2.2 rfl⟩

/-- Claim C7: `stop_backend` on an empty slot is a no-op — the state is
returned unchanged and no signal, wait or take is performed (the only
events are acquiring and releasing the lock). -/
theorem stop_empty_noop (env : Env) (s : SupervisorState) (h : s.slot = none) :
    (stop_backend env s).1 = s
    ∧ ∀ e ∈ (stop_backend env s).2,
        e = Event.lockAcquire ∨ e = Event.lockRelease := by
  unfold stop_backend
  cases hl : s.lockOk with
  | false => simp [hl]
  | true =>
    refine ⟨by simp [hl, h], ?_⟩
    simp only [hl, h]
    intro e he
    simpa using he

/-- Witness for C7 on a closed input. -/
theorem stop_empty_noop_witness :
    sEmpty.slot = none
    ∧ ((stop_backend envLinux sEmpty).1 = sEmpty
       ∧ ∀ e ∈ (stop_backend envLinux sEmpty).2,
           e = Event.lockAcquire ∨ e = Event.lockRelease) :=
  ⟨rfl, stop_empty_noop envLinux sEmpty rfl⟩

/-- Claim C10: `stop_backend` is idempotent — whenever the lock is
acquired, the slot is empty after it returns, and a second immediate
call leaves the state unchanged and performs only the lock acquire and
release of the empty-slot branch. -/
theorem stop_idempotent (env : Env) (s : SupervisorState) (h : s.lockOk = true) :
    (stop_backend env s).1.slot = none
    ∧ stop_backend env (stop_backend env s).1 =
        ((stop_backend env s).1, [Event.lockAcquire, Event.lockRelease]) := by
  unfold stop_backend
  cases hs : s.slot <;> simp [h, hs]

/-- Witness for C10 on a closed input. -/
theorem stop_idempotent_witness :
    sOne.lockOk = true
    ∧ ((stop_backend envLinux sOne).1.slot = none
       ∧ stop_backend envLinux (stop_backend envLinux sOne).1 =
          ((stop_backend envLinux sOne).1,
           [Event.lockAcquire, Event.lockRelease])) :=
  ⟨rfl, stop_idempotent envLinux sOne rfl⟩

/-- Claim C9: `get_backend_info` is the concatenation, in order, of five
newline-terminated `key: value` lines: operating-system name, CPU
architecture, resolved resource directory (or the not-found marker),
resolved Node.js location (or the not-found marker), and the liveness
status as reported by the probe at call time. -/
theorem info_line_format (env : Env) :
    get_backend_info env =
      ("平台: " ++ os_name env.platform ++ "\n")
      ++ (("架构: " ++ env.arch ++ "\n")
      ++ ((match get_resource_dir env with
           | some resourceDir => "资源目录: " ++ debugPath resourceDir ++ "\n"
           | none => "资源目录: 未找到\n")
      ++ ((match find_node env with
           | some node => "Node.js: " ++ node ++ "\n"
           | none => "Node.js: 未找到\n")
      ++ ("后端状态: "
          ++ (if (check_backend_status env).1 then "运行中" else "未运行")
          ++ "\n")))) := by
  unfold get_backend_info
  cases hr : get_resource_dir env <;> cases hn : find_node env <;>
    cases hc : (check_backend_status env).1 <;>
      (simp only [hr, hn, hc, if_true, if_false, Bool.false_eq_true]
       ; apply String.ext
       ; simp [String.data_append, List.append_assoc])

/-- Helper: `stop_backend` never changes the lock-health flag. -/
theorem stop_lockOk (env : Env) (s : SupervisorState) :
    (stop_backend env s).1.lockOk = s.lockOk := by
  unfold stop_backend
  cases h : s.lockOk <;> cases hs : s.slot <;> simp [h, hs]

/-- Helper: with the lock healthy, `stop_backend` always leaves the slot
empty. -/
theorem stop_clears_slot (env : Env) (s : SupervisorState)
    (h : s.lockOk = true) : (stop_backend env s).1.slot = none := by
  unfold stop_backend
  cases hs : s.slot <;> simp [h, hs]

/-- Claim C1: `restart_backend` performs the full `stop_backend`
(including the wait for exit and the slot clearing), then the fixed
500 ms sleep, then `start_backend`, in that order; the new handle is
stored exactly when the spawn succeeded, the slot stays empty on spawn
failure, and the returned boolean is `true` precisely when a new handle
was stored. -/
theorem restart_stop_delay_start (env : Env) (s : SupervisorState)
    (h : s.lockOk = true) :
    (restart_backend env s).2.2 =
      (stop_backend env s).2 ++ [Event.sleepMs 500] ++ (start_backend env).2
        ++ (match (start_backend env).1 with
            | some c => [Event.storeHandle c.pid]
            | none => [])
    ∧ (restart_backend env s).2.1.slot = (start_backend env).1
    ∧ ((restart_backend env s).1 = true ↔ ((start_backend env).1).isSome = true)
    ∧ ((start_backend env).1 = none →
        (restart_backend env s).2.1.slot = none
        ∧ (restart_backend env s).1 = false) := by
  have hlock : (stop_backend env s).1.lockOk = true := by
    rw [stop_lockOk]; exact h
  have hslot : (stop_backend env s).1.slot = none := stop_clears_slot env s h
  unfold restart_backend
  cases hst : start_backend env with
  | mk oc ts =>
    cases oc with
    | some child => simp [hlock, hst, List.append_assoc]
    | none => simp [hlock, hslot, hst, List.append_assoc]

/-- Witness for C1 on a closed input: in `envLinux` every spawn fails,
so the restart leaves the slot empty and reports `false`. -/
theorem restart_stop_delay_start_witness :
    sOne.lockOk = true
    ∧ (start_backend envLinux).1 = none
    ∧ (restart_backend envLinux sOne).2.1.slot = none
    ∧ (restart_backend envLinux sOne).1 = false :=
  ⟨rfl, rfl,
   ((restart_stop_delay_start envLinux sOne rfl).2.2.2 rfl).1,
   ((restart_stop_delay_start envLinux sOne rfl).2.2.2 rfl).2⟩

/-- Claim C5 counterexample: the claim says the wait-for-process-exit of
`stop_backend` happens outside the lock, but on the concrete state
`sOne` (one handle present, lock healthy) the wait event occurs while
the lock is held — in the source the `MutexGuard` of the `if let Ok`
block is dropped only after `child.wait()` returns. -/
theorem stop_wait_outside_lock_cex :
    wait_while_locked (stop_backend envLinux sOne).2 false = true := by rfl

/-- Claim C5 (amended): whenever a handle is present and the lock is
acquired, `stop_backend` performs the wait-for-exit while still holding
the lock (the guard is released only after the wait); the liveness probe
`check_backend_status` never acquires the lock at all, so it is not
serialized against an in-flight stop. -/
theorem stop_holds_lock_across_wait (env : Env) (s : SupervisorState)
    (c : Child) (hl : s.lockOk = true) (hs : s.slot = some c) :
    wait_while_locked (stop_backend env s).2 false = true
    ∧ ∀ e ∈ (check_backend_status env).2, e ≠ Event.lockAcquire := by
  constructor
  · have ht : (stop_backend env s).2 =
        [Event.lockAcquire, Event.takeHandle c.pid,
         Event.signalSend (kill_cmd env.platform c.pid)
           (env.signalOk (kill_cmd env.platform c.pid)),
         Event.waitExit c.pid, Event.lockRelease] := by
      unfold stop_backend; simp [hl, hs]
    rw [ht]; rfl
  · unfold check_backend_status
    cases h : env.connect backend_addr <;> simp

/-- Witness for the amended C5 on a closed input. -/
theorem stop_holds_lock_across_wait_witness :
    sOne.lockOk = true ∧ sOne.slot = some { pid := 7 }
    ∧ (wait_while_locked (stop_backend envLinux sOne).2 false = true
       ∧ ∀ e ∈ (check_backend_status envLinux).2, e ≠ Event.lockAcquire) :=
  ⟨rfl, rfl,
   stop_holds_lock_across_wait envLinux sOne { pid := 7 } rfl rfl⟩

/-- Claim C8: resource-directory resolution checks the `resources`
folder adjacent to the executable on Windows and Linux, the `Resources`
folder sibling to the executable's directory on macOS, with the
system-wide `/usr/share/wqbot/resources` fallback on Linux only;
existence is required in every case and `none` is returned otherwise;
the backend entry point is the fixed relative path
`packages/backend/dist/index.js` under the resolved root. -/
theorem resource_dir_resolution (env : Env) (exe exeDir : Path)
    (h1 : env.currentExe = some exe) (h2 : parentPath exe = some exeDir) :
    (env.platform = .windows →
      get_resource_dir env =
        (if env.dirExists (exeDir ++ ["resources"])
         then some (exeDir ++ ["resources"]) else none))
    ∧ (env.platform = .linux →
      get_resource_dir env =
        (if env.dirExists (exeDir ++ ["resources"])
         then some (exeDir ++ ["resources"])
         else if env.dirExists system_resource then some system_resource
         else none))
    ∧ (env.platform = .macos →
      get_resource_dir env =
        (match parentPath exeDir with
         | some contents =>
           if env.dirExists (contents ++ ["Resources"])
           then some (contents ++ ["Resources"]) else none
         | none => none))
    ∧ system_resource = ["", "usr", "share", "wqbot", "resources"]
    ∧ (∀ resourceDir : Path,
        backend_entry resourceDir =
          resourceDir ++ ["packages", "backend", "dist", "index.js"]) := by
  refine ⟨?_, ?_, ?_, rfl, fun resourceDir => rfl⟩ <;>
    intro hp <;> simp [get_resource_dir, h1, h2, hp, joinPath]

/-- Witness for C8 on a closed input: on the Windows environment the
adjacent `resources` folder exists and is returned. -/
theorem resource_dir_resolution_witness :
    envWin.currentExe = some exeW
    ∧ parentPath exeW = some ["C:", "app"]
    ∧ get_resource_dir envWin =
        (if envWin.dirExists (["C:", "app"] ++ ["resources"])
         then some (["C:", "app"] ++ ["resources"]) else none) :=
  ⟨rfl, rfl,
   (resource_dir_resolution envWin exeW ["C:", "app"] rfl rfl).1 rfl⟩

/-- Helper: the global-candidate loop of `start_backend` computes the
first successful spawn together with the attempt trace. -/
theorem try_spawn_list_eq (env : Env) (cs : List SpawnCmd) :
    try_spawn_list env cs = (first_spawn env cs, attempts_of env cs) := by
  induction cs with
  | nil => rfl
  | cons c rest ih =>
    unfold try_spawn_list first_spawn attempts_of
    cases h : env.spawn c <;> simp [h, ih]

/-- Helper: scanning an appended candidate list finds the first success
of the prefix, or else scans the suffix. -/
theorem first_spawn_append (env : Env) (xs ys : List SpawnCmd) :
    first_spawn env (xs ++ ys) =
      (match first_spawn env xs with
       | some c => some c
       | none => first_spawn env ys) := by
  induction xs with
  | nil => simp [first_spawn]
  | cons c rest ih =>
    cases h : env.spawn c <;> simp [first_spawn, h, ih]

/-- Helper: when every candidate of the prefix fails, the attempts on an
appended list are the prefix attempts followed by the suffix attempts. -/
theorem attempts_of_append_none (env : Env) (xs ys : List SpawnCmd)
    (h : first_spawn env xs = none) :
    attempts_of env (xs ++ ys) = attempts_of env xs ++ attempts_of env ys := by
  induction xs with
  | nil => simp [attempts_of]
  | cons c rest ih =>
    cases hc : env.spawn c with
    | some child => simp [first_spawn, hc] at h
    | none =>
      have h2 : first_spawn env rest = none := by
        simpa [first_spawn, hc] using h
      simp [attempts_of, hc, ih h2]

/-- Helper: when some candidate of the prefix succeeds, the scan never
reaches the suffix. -/
theorem attempts_of_append_some (env : Env) (xs ys : List SpawnCmd)
    (c : Child) (h : first_spawn env xs = some c) :
    attempts_of env (xs ++ ys) = attempts_of env xs := by
  induction xs with
  | nil => simp [first_spawn] at h
  | cons d rest ih =>
    cases hc : env.spawn d with
    | some child => simp [attempts_of, hc]
    | none =>
      have h2 : first_spawn env rest = some c := by
        simpa [first_spawn, hc] using h
      simp [attempts_of, hc, ih h2]

/-- Claim C6: `start_backend` attempts the candidates in the spec's
fixed order — global CLI, CLI via the package runner, then the local
runtime on the embedded entry script (which is a candidate only when
the resource directory, Node.js and the entry script all resolve) — the
first successfully spawned candidate wins, every spawn failure falls
through to the next candidate, and when every candidate fails the
result is `none`, never an error. -/
theorem start_candidate_order (env : Env) :
    start_backend env =
      (first_spawn env (spec_candidates env),
       attempts_of env (spec_candidates env)) := by
  unfold start_backend spec_candidates
  rw [try_spawn_list_eq]
  cases hg : first_spawn env (global_commands env.platform) with
  | some child =>
    rw [first_spawn_append, attempts_of_append_some env _ _ child hg]
    simp [hg]
  | none =>
    rw [first_spawn_append, attempts_of_append_none env _ _ hg]
    cases hr : get_resource_dir env with
    | none => simp [hg, first_spawn, attempts_of]
    | some rd =>
      cases hn : find_node env with
      | none => simp [hg, first_spawn, attempts_of]
      | some node =>
        cases hf : env.fileExists (backend_entry rd) with
        | false => simp [hg, hf, first_spawn, attempts_of]
        | true =>
          cases hsp : env.spawn
              { program := node, args := [pathStr (backend_entry rd)],
                cwd := some rd } with
          | none => simp [hg, hf, hsp, first_spawn, attempts_of]
          | some child => simp [hg, hf, hsp, first_spawn, attempts_of]

/-- Helper: `restart_backend` never changes the lock-health flag. -/
theorem restart_lockOk (env : Env) (s : SupervisorState) :
    (restart_backend env s).2.1.lockOk = s.lockOk := by
  unfold restart_backend
  cases hst : start_backend env with
  | mk oc ts =>
    cases oc with
    | none => simpa using stop_lockOk env s
    | some child =>
      cases hl : (stop_backend env s).1.lockOk with
      | true => simpa [hl] using stop_lockOk env s
      | false => simpa [hl] using stop_lockOk env s

/-- Helper: no UI operation changes the lock-health flag. -/
theorem runOp_lockOk (env : Env) (s : SupervisorState) (op : Op) :
    (runOp env s op).1.lockOk = s.lockOk := by
  cases op with
  | opStatus => rfl
  | opStop => exact stop_lockOk env s
  | opRestart => simpa [runOp] using restart_lockOk env s

/-- Helper: in any single UI operation started with a stored handle and
a healthy lock, no handle is stored into the slot before the old handle
has been taken out. -/
theorem step_taken_before_store (env : Env) (s : SupervisorState) (op : Op)
    (c : Child) (hl : s.lockOk = true) (hs : s.slot = some c) :
    taken_before_store c.pid (runOp env s op).2 = true := by
  have ht : (stop_backend env s).2 =
      [Event.lockAcquire, Event.takeHandle c.pid,
       Event.signalSend (kill_cmd env.platform c.pid)
         (env.signalOk (kill_cmd env.platform c.pid)),
       Event.waitExit c.pid, Event.lockRelease] := by
    unfold stop_backend; simp [hl, hs]
  cases op with
  | opStatus =>
    unfold runOp check_backend_status
    cases h : env.connect backend_addr <;> simp [taken_before_store]
  | opStop =>
    unfold runOp
    rw [ht]
    simp [taken_before_store]
  | opRestart =>
    unfold runOp restart_backend
    cases hst : start_backend env with
    | mk oc ts =>
      cases oc with
      | some child =>
        cases hl2 : (stop_backend env s).1.lockOk <;>
          simp [hst, ht, hl2, taken_before_store, List.cons_append]
      | none => simp [hst, ht, taken_before_store, List.cons_append]

/-- Claim C2: the slot of `SupervisorState` holds at most one `Child`
(it is an `Option`), and along every sequence of UI operations started
with a healthy lock, whenever a step begins with a stored handle, no new
handle is stored into the slot before the old one has been taken out —
`stop_backend`'s take always precedes `restart_backend`'s store, so no
stored handle is ever silently overwritten or leaked. -/
theorem handle_never_overwritten (env : Env) (s : SupervisorState)
    (ops : List Op) (h : s.lockOk = true) :
    steps_safe env s ops = true := by
  induction ops generalizing s with
  | nil => rfl
  | cons op rest ih =>
    unfold steps_safe
    rw [Bool.and_eq_true]
    constructor
    · cases hs : s.slot with
      | none => simp
      | some c => exact step_taken_before_store env s op c h hs
    · exact ih _ ((runOp_lockOk env s op).trans h)

/-- Witness for C2 on a closed input: a restart, a stop and a status
probe starting from a state holding one handle. -/
theorem handle_never_overwritten_witness :
    sOne.lockOk = true
    ∧ steps_safe envLinux sOne [Op.opRestart, Op.opStop, Op.opStatus] = true :=
  ⟨rfl,
   handle_never_overwritten envLinux sOne
     [Op.opRestart, Op.opStop, Op.opStatus] rfl⟩

end WQBot
